import Mathlib

/-!
Verification of the card catalog filter-and-render engine (`script.js`).

The JavaScript source is shallowly embedded: the dataset records become Lean
structures, the DOM card list becomes a list of `CardDom` records (inline
`display` style, `flipped` and `active` classes, the front face's `data-theme`
attribute), the JS `Set`s of active filter values become `Finset String`, the
JS `Map`s become association lists or lookup functions, and each event handler
becomes a pure state-transition function.  Machine-level concerns (timers,
`requestAnimationFrame` batching) collapse away: handlers are modelled at
their settled effect, which is how the single-threaded event loop exposes
them to the next interaction.
-/

namespace Cardography

/-! ## Data model (section 3 of the design; fields as in `theme-library.json`
usage inside `script.js`) -/

/-- Button styling of the back face (`theme.backCard.components.button`). -/
structure ButtonStyle where
  background : String
  color : Option String
  border : Option String
  deriving DecidableEq

/-- `theme.backCard.components`. -/
structure BackComponents where
  button : ButtonStyle
  deriving DecidableEq

/-- `theme.backCard.theme`: gradient plus the primary color list shown as
swatches on the back face. -/
structure BackTheme where
  backgroundGradient : String
  primaryColors : List String
  deriving DecidableEq

/-- `theme.backCard`. -/
structure BackCard where
  theme : BackTheme
  components : BackComponents
  deriving DecidableEq

/-- `theme.frontCard`. -/
structure FrontCard where
  textColor : String
  deriving DecidableEq

/-- One theme record, with exactly the fields `script.js` reads.
`colorFamily`, `designSystem` and `tagline` are optional in the dataset
(the code tests them for truthiness before use). -/
structure Theme where
  id : String
  name : String
  displayName : String
  tagline : Option String
  historicalContext : String
  colorFamily : Option String
  designSystem : Option String
  vibes : List String
  colorPalette : List String
  frontCard : FrontCard
  backCard : BackCard
  deriving DecidableEq

/-- One category (section) of the dataset. -/
structure Category where
  id : String
  title : String
  themes : List Theme
  deriving DecidableEq

/-- The loaded dataset (`themeData`). -/
structure ThemeData where
  categories : List Category
  deriving DecidableEq

/-- All themes of the dataset in category-then-theme order, the order every
`themeData.categories.forEach(cat => cat.themes.forEach(...))` loop visits. -/
def allThemes (d : ThemeData) : List Theme :=
  d.categories.foldr (fun c acc => c.themes ++ acc) []

/-- The `themeCache` `Map` built by the filter-initialization pass
(`themeCache.set(theme.id, theme)` over all categories and themes).  A later
`set` on the same key overwrites an earlier one, hence the `foldl` with
overwrite. -/
def themeCacheGet (d : ThemeData) (id : String) : Option Theme :=
  (allThemes d).foldl (fun acc t => if t.id = id then some t else acc) none

/-! ## Selection state and DOM model -/

/-- The `activeFilters` global: a set of selected color families and a set of
selected design systems (JS `Set`s of strings). -/
structure ActiveFilters where
  colors : Finset String
  designs : Finset String
  deriving DecidableEq

/-- A rendered `.flip-card` DOM node: `front` is the `data-theme` attribute of
its `.flip-card-front` child (`none` when that child is missing), `display`
is whether the card's inline style leaves it visible (`false` models
`display: none`), `flipped` and `active` are the presence of those classes. -/
structure CardDom where
  front : Option String
  display : Bool
  flipped : Bool
  active : Bool
  deriving DecidableEq

/-- The card rendered for a theme by `createThemeCard`: front face carries
`data-theme="${theme.id}"`, no inline display style (visible), no `flipped`
or `active` class. -/
def initCard (t : Theme) : CardDom :=
  { front := some t.id, display := true, flipped := false, active := false }

/-- The full card list produced by rendering the dataset. -/
def initCards (d : ThemeData) : List CardDom :=
  (allThemes d).map initCard

/-- JS `filterSet.has(theme.field)` where the field may be `undefined`:
a `Set` of strings never contains `undefined`. -/
def setHas (s : Finset String) : Option String → Bool
  | some v => decide (v ∈ s)
  | none => false

/-- The `shouldShow` computation inside `applyFilters`: starts `true`, each
facet with a non-empty active set conjoins a membership test. -/
def shouldShowTheme (f : ActiveFilters) (t : Theme) : Bool :=
  let s0 := true
  let s1 := if 0 < f.colors.card then s0 && setHas f.colors t.colorFamily else s0
  let s2 := if 0 < f.designs.card then s1 && setHas f.designs t.designSystem else s1
  s2

/-- One card's treatment inside the `allCards.forEach` loop of `applyFilters`:
a card without a `.flip-card-front` is skipped (`if (!front) return`), a card
whose `data-theme` misses the cache is skipped (`if (!theme) return`), and
otherwise its display style is set from `shouldShow`. -/
def applyFiltersCard (f : ActiveFilters) (cache : String → Option Theme)
    (c : CardDom) : CardDom :=
  match c.front with
  | none => c
  | some tid =>
    match cache tid with
    | none => c
    | some t => { c with display := shouldShowTheme f t }

/-- `applyFilters` over the whole card list (the batched visibility update,
after the `requestAnimationFrame` callback has run). -/
def applyFilters (f : ActiveFilters) (cache : String → Option Theme)
    (cards : List CardDom) : List CardDom :=
  cards.map (applyFiltersCard f cache)

/-- `toggleFilter(type, value)` on the filter state: `type === 'color'`
selects the colors set, anything else the designs set; membership decides
between delete and add. -/
def toggleFilter (ty v : String) (f : ActiveFilters) : ActiveFilters :=
  if ty = "color" then
    { f with colors := if v ∈ f.colors then f.colors.erase v else insert v f.colors }
  else
    { f with designs := if v ∈ f.designs then f.designs.erase v else insert v f.designs }

/-! ## Application state and event handlers -/

/-- Index-aware map over a list, used to model batched per-node DOM updates
where a node is selected by identity (its position in the rendered list). -/
def mapWithIndexFrom (f : Nat → α → α) : Nat → List α → List α
  | _, [] => []
  | i, a :: as => f i a :: mapWithIndexFrom f (i + 1) as

/-- `mapWithIndexFrom` starting at index 0. -/
def mapWithIndex (f : Nat → α → α) (l : List α) : List α :=
  mapWithIndexFrom f 0 l

/-- The whole mutable page state of `script.js` relevant to the claims:
filter sets, the two global toggle flags, the `activeThemeCard` reference
(as an index into `cards`), the rendered card list and the `sectionStates`
map (as an association list in insertion order). -/
structure AppState where
  filters : ActiveFilters
  allCardsFlipped : Bool
  allSectionsExpanded : Bool
  activeThemeCard : Option Nat
  cards : List CardDom
  sectionStates : List (String × Bool)
  deriving DecidableEq

/-- `setActiveThemeCard(card)`: if a different card was active, its `active`
class is removed; the reference is repointed and the new card gets the
class. -/
def setActiveThemeCard (i : Nat) (s : AppState) : AppState :=
  let cards1 :=
    match s.activeThemeCard with
    | some k =>
      if k = i then s.cards
      else mapWithIndex (fun j c => if j = k then { c with active := false } else c) s.cards
    | none => s.cards
  { s with
    activeThemeCard := some i
    cards := mapWithIndex (fun j c => if j = i then { c with active := true } else c) cards1 }

/-- `flipCard(card)`: guard against a null card (an index past the rendered
list), set the active card, then toggle the card's `flipped` class. -/
def flipCard (i : Nat) (s : AppState) : AppState :=
  if i < s.cards.length then
    let s1 := setActiveThemeCard i s
    { s1 with
      cards := mapWithIndex
        (fun j c => if j = i then { c with flipped := !c.flipped } else c) s1.cards }
  else s

/-- `handleExpandToggle`: flip the global flag, then set every tracked section
whose content and arrow elements exist in the DOM (`dom` lists those ids) to
the new flag value. -/
def handleExpandToggle (dom : List String) (s : AppState) : AppState :=
  let g := !s.allSectionsExpanded
  { s with
    allSectionsExpanded := g
    sectionStates := s.sectionStates.map (fun p => if p.1 ∈ dom then (p.1, g) else p) }

/-- `handleFlipToggle`: flip the global flag, then force every card other
than `activeThemeCard` to the new flag value. -/
def handleFlipToggle (s : AppState) : AppState :=
  let g := !s.allCardsFlipped
  { s with
    allCardsFlipped := g
    cards := mapWithIndex
      (fun i c => if s.activeThemeCard = some i then c else { c with flipped := g }) s.cards }

/-- `clearAllFilters`: empty both facet sets, then re-run the filter pass
(which with empty sets shows every cached card). -/
def clearAllFilters (cache : String → Option Theme) (s : AppState) : AppState :=
  let f : ActiveFilters := { colors := ∅, designs := ∅ }
  { s with filters := f, cards := applyFilters f cache s.cards }

/-- `Map.get` on the `sectionStates` association list. -/
def mapGet (id : String) : List (String × Bool) → Option Bool
  | [] => none
  | p :: ps => if p.1 = id then some p.2 else mapGet id ps

/-- `Map.set` on the `sectionStates` association list (overwrites in place,
appends when absent). -/
def mapSet (id : String) (v : Bool) : List (String × Bool) → List (String × Bool)
  | [] => [(id, v)]
  | p :: ps => if p.1 = id then (id, v) :: ps else p :: mapSet id v ps

/-- `toggleSection(sectionId)`: no-op when content or arrow is missing from
the DOM; otherwise negate the stored state (`undefined` for an untracked id
is falsy, so it becomes `true`). -/
def toggleSection (dom : List String) (id : String) (s : AppState) : AppState :=
  if id ∈ dom then
    let isExpanded := (mapGet id s.sectionStates).getD false
    { s with sectionStates := mapSet id (!isExpanded) s.sectionStates }
  else s

/-- The user interactions that mutate the page state. -/
inductive Op where
  | flipCardOp (i : Nat)
  | flipAllToggle
  | expandAllToggle
  | toggleFilterOp (ty v : String)
  | clearFiltersOp
  | toggleSectionOp (id : String)

/-- One interaction step.  A filter toggle also re-runs the (debounced)
filter pass at its settled state; clearing filters re-runs it directly. -/
def step (cache : String → Option Theme) (dom : List String) :
    Op → AppState → AppState
  | .flipCardOp i, s => flipCard i s
  | .flipAllToggle, s => handleFlipToggle s
  | .expandAllToggle, s => handleExpandToggle dom s
  | .toggleFilterOp ty v, s =>
    let f := toggleFilter ty v s.filters
    { s with filters := f, cards := applyFilters f cache s.cards }
  | .clearFiltersOp, s => clearAllFilters cache s
  | .toggleSectionOp id, s => toggleSection dom id s

/-- The state right after startup: no filters, flags off, no active card,
the rendered dataset's cards, and each section tracked with only `core`
expanded (`sectionStates.set(section.id, section.id === 'core')`). -/
def initAppState (d : ThemeData) : AppState :=
  { filters := { colors := ∅, designs := ∅ }
    allCardsFlipped := false
    allSectionsExpanded := false
    activeThemeCard := none
    cards := initCards d
    sectionStates := d.categories.map (fun sec => (sec.id, sec.id == "core")) }

/-- Run a sequence of interactions from a state. -/
def runOps (cache : String → Option Theme) (dom : List String)
    (ops : List Op) (s : AppState) : AppState :=
  ops.foldl (fun st op => step cache dom op st) s

/-! ## Card count -/

/-- `totalCards`: `themeData.categories.reduce((sum, c) => sum + c.themes.length, 0)`. -/
def totalCards (d : ThemeData) : Nat :=
  d.categories.foldl (fun sum c => sum + c.themes.length) 0

/-- `visibleCards`: the `.flip-card` nodes whose inline style does not hide
them. -/
def visibleCards (cards : List CardDom) : Nat :=
  (cards.filter (fun c => c.display)).length

/-- `isFiltered`: at least one filter value is active in either facet. -/
def isFiltered (f : ActiveFilters) : Bool :=
  0 < f.colors.card || 0 < f.designs.card

/-- `updateCardCount`: with no loaded data the function returns before
touching the counter (`none` = no update); otherwise the counter text is
either `visible / total` or the bare total. -/
def updateCardCount (td : Option ThemeData) (f : ActiveFilters)
    (cards : List CardDom) : Option String :=
  match td with
  | none => none
  | some d =>
    some (if isFiltered f then
            toString (visibleCards cards) ++ " / " ++ toString (totalCards d)
          else toString (totalCards d))

/-! ## Markup templating (`createThemeCard`, section rendering) -/

/-- JS truthiness fallback `x || dflt` on an optional string (the empty
string is falsy). -/
def strOrElse (o : Option String) (dflt : String) : String :=
  match o with
  | some s => if s = "" then dflt else s
  | none => dflt

/-- The conditional tagline paragraph of the front face. -/
def taglineHTML (o : Option String) : String :=
  match o with
  | some s => if s = "" then "" else "<p class=\"theme-tagline\">" ++ s ++ "</p>"
  | none => ""

/-- One vibe tag span; the front face joins one per vibe. -/
def vibeTag (vibe : String) : String :=
  "<span class=\"vibe-tag\">" ++ vibe ++ "</span>"

/-- One front-face color dot. -/
def colorDot (color : String) : String :=
  "<div class=\"color-dot\" style=\"background: " ++ color ++ ";\"></div>"

/-- One back-face primary color swatch. -/
def primarySwatch (color : String) : String :=
  "<div class=\"w-4 h-4 rounded\" style=\"background: " ++ color ++ ";\"></div>"

/-- `createThemeCard(theme)`: the flip-card markup.  The front strip shows
`theme.colorPalette.slice(0, 5)` as dots, the back shows
`theme.backCard.theme.primaryColors.slice(0, 4)` as swatches. -/
def createThemeCard (t : Theme) : String :=
  let backCardStyle :=
    "background: " ++ t.backCard.theme.backgroundGradient ++ "; color: "
      ++ t.frontCard.textColor ++ ";"
  let vibesHTML := String.join (t.vibes.map vibeTag)
  let colorPaletteHTML := String.join ((t.colorPalette.take 5).map colorDot)
  let primaryColorsHTML :=
    String.join ((t.backCard.theme.primaryColors.take 4).map primarySwatch)
  "<div class=\"flip-card\" onclick=\"flipCard(this)\">"
    ++ "<div class=\"flip-card-inner\">"
    ++ "<div class=\"flip-card-front\" data-theme=\"" ++ t.id ++ "\">"
    ++ "<div class=\"theme-card-content\">"
    ++ "<div class=\"theme-header\">"
    ++ "<h3 class=\"theme-title\">" ++ t.name ++ "</h3>"
    ++ taglineHTML t.tagline
    ++ "</div>"
    ++ "<div class=\"color-palette-strip\">" ++ colorPaletteHTML ++ "</div>"
    ++ "<div class=\"context-box\">"
    ++ "<div class=\"context-label\">Historical Context</div>"
    ++ "<p class=\"context-text\">" ++ t.historicalContext ++ "</p>"
    ++ "</div>"
    ++ "<div class=\"vibes-section\">"
    ++ "<div class=\"vibes-label\">Style Characteristics</div>"
    ++ "<div class=\"vibes-container\">" ++ vibesHTML ++ "</div>"
    ++ "</div>"
    ++ "</div>"
    ++ "</div>"
    ++ "<div class=\"flip-card-back\" style=\"" ++ backCardStyle
    ++ "\" data-theme=\"" ++ t.id ++ "\">"
    ++ "<div class=\"p-6 flex flex-col justify-center h-full\">"
    ++ "<div class=\"text-center\">"
    ++ "<h4 class=\"text-xl font-bold mb-4\">" ++ t.displayName ++ "</h4>"
    ++ "<div class=\"space-y-3\">"
    ++ "<button class=\"w-full py-3 rounded font-semibold\" style=\"background: "
    ++ t.backCard.components.button.background ++ "; color: "
    ++ strOrElse t.backCard.components.button.color t.frontCard.textColor
    ++ "; border: " ++ strOrElse t.backCard.components.button.border "none"
    ++ ";\">Button Style</button>"
    ++ "<div class=\"opacity-75 p-3 rounded text-sm\"><p>"
    ++ strOrElse t.tagline "Theme showcase" ++ "</p></div>"
    ++ "<div class=\"flex justify-center space-x-2\">" ++ primaryColorsHTML ++ "</div>"
    ++ "</div>"
    ++ "</div>"
    ++ "</div>"
    ++ "</div>"
    ++ "</div>"
    ++ "</div>"

/-- The `sectionDiv.innerHTML` template of `renderThemeSections` for one
category (apostrophes of the `onclick` attribute written as `\x27`). -/
def sectionHTML (expanded : Bool) (sec : Category) : String :=
  let cardsHTML := String.join (sec.themes.map createThemeCard)
  "<div class=\"section-header p-4 cursor-pointer\" onclick=\"toggleSection(\x27"
    ++ sec.id ++ "\x27)\">"
    ++ "<h2 class=\"text-xl font-bold text-white flex items-center justify-between\">"
    ++ "<span>" ++ sec.title ++ " <span class=\"section-count text-yellow-300\">("
    ++ toString sec.themes.length ++ ")</span></span>"
    ++ "<i class=\"fas fa-chevron-down transition-transform duration-300\" id=\""
    ++ sec.id ++ "-arrow\"></i>"
    ++ "</h2>"
    ++ "</div>"
    ++ "<div class=\"section-content " ++ (if expanded then "expanded" else "")
    ++ "\" id=\"" ++ sec.id ++ "-content\">"
    ++ "<div class=\"grid grid-cols-1 md:grid-cols-2 lg:grid-cols-3 xl:grid-cols-4 gap-6 p-6 bg-black/10\">"
    ++ cardsHTML
    ++ "</div>"
    ++ "</div>"

/-! ## Startup sequence (`loadThemeData` through `updateCardCount`) -/

/-- `loadThemeData`: a successful fetch-and-parse stores the dataset and seeds
`sectionStates` (only the `core` section starts expanded); a network or parse
error is caught, logged, and leaves `themeData` null and `sectionStates`
empty. -/
def loadThemeData (fetchResult : Except String ThemeData) :
    Option ThemeData × List (String × Bool) :=
  match fetchResult with
  | .error _ => (none, [])
  | .ok d => (some d, d.categories.map (fun sec => (sec.id, sec.id == "core")))

/-- `renderThemeSections`: returns early with nothing rendered when
`themeData` is null; otherwise one section markup per category, in dataset
order. -/
def renderThemeSections (td : Option ThemeData)
    (states : List (String × Bool)) : List String :=
  match td with
  | none => []
  | some d => d.categories.map (fun sec => sectionHTML ((mapGet sec.id states).getD false) sec)

/-- What the filter-initialization pass produces: the lookup cache and the
collected facet option sets. -/
structure FilterInit where
  cache : List (String × Theme)
  allColorFamilies : Finset String
  allDesignSystems : Finset String
  deriving DecidableEq

/-- `initializeFilters` of the source: it dereferences
`themeData.categories` with no null guard, so when `themeData` is null it
throws (`TypeError`), modelled as `Except.error`; otherwise it builds the
lookup cache and collects every truthy `colorFamily` and `designSystem`. -/
def initFilters (td : Option ThemeData) : Except String FilterInit :=
  match td with
  | none => .error "TypeError: cannot read categories of null"
  | some d =>
    .ok { cache := (allThemes d).map (fun t => (t.id, t))
          allColorFamilies :=
            (allThemes d).foldl
              (fun acc t => match t.colorFamily with
                | some v => if v = "" then acc else insert v acc
                | none => acc) ∅
          allDesignSystems :=
            (allThemes d).foldl
              (fun acc t => match t.designSystem with
                | some v => if v = "" then acc else insert v acc
                | none => acc) ∅ }

/-- What startup leaves behind when it completes without throwing. -/
structure StartupState where
  themeData : Option ThemeData
  sections : List String
  filterInit : FilterInit
  countText : Option String
  deriving DecidableEq

/-- The `DOMContentLoaded` handler: load, render sections, initialize the
filter pass, update the card counter.  A throw anywhere aborts the rest of
the sequence and escapes the async handler. -/
def startupSequence (fetchResult : Except String ThemeData) :
    Except String StartupState :=
  let ls := loadThemeData fetchResult
  let sections := renderThemeSections ls.1 ls.2
  match initFilters ls.1 with
  | .error e => .error e
  | .ok fi =>
    .ok { themeData := ls.1
          sections := sections
          filterInit := fi
          countText :=
            updateCardCount ls.1 { colors := ∅, designs := ∅ }
              (match ls.1 with | none => [] | some d => initCards d) }

/-! ## The spec's visibility policy, stated in the spec's own words, for the
refinement claims about the filter pass -/

/-- The visibility policy as the spec words it: visible iff (the color filter
set is empty or the theme's color family is a member) and (the design filter
set is empty or the theme's design system is a member). -/
def specVisible (f : ActiveFilters) (t : Theme) : Prop :=
  (f.colors = ∅ ∨ ∃ v, t.colorFamily = some v ∧ v ∈ f.colors) ∧
  (f.designs = ∅ ∨ ∃ v, t.designSystem = some v ∧ v ∈ f.designs)

/-! ## Helper lemmas -/

theorem mapWithIndexFrom_length (f : Nat → α → α) (n : Nat) (l : List α) :
    (mapWithIndexFrom f n l).length = l.length := by
  induction l generalizing n with
  | nil => rfl
  | cons a as ih => simp [mapWithIndexFrom, ih]

theorem mapWithIndexFrom_getElem? (f : Nat → α → α) (n : Nat) (l : List α)
    (j : Nat) : (mapWithIndexFrom f n l)[j]? = (l[j]?).map (f (n + j)) := by
  induction l generalizing n j with
  | nil => simp [mapWithIndexFrom]
  | cons a as ih =>
    cases j with
    | zero => simp [mapWithIndexFrom]
    | succ j =>
      simp only [mapWithIndexFrom, List.getElem?_cons_succ, ih]
      have : n + 1 + j = n + (j + 1) := by omega
      rw [this]

theorem mapWithIndex_getElem? (f : Nat → α → α) (l : List α) (j : Nat) :
    (mapWithIndex f l)[j]? = (l[j]?).map (f j) := by
  simpa [mapWithIndex] using mapWithIndexFrom_getElem? f 0 l j

theorem mapWithIndex_length (f : Nat → α → α) (l : List α) :
    (mapWithIndex f l).length = l.length :=
  mapWithIndexFrom_length f 0 l

/-- The per-card filter step never touches anything but the display style. -/
theorem applyFiltersCard_active (f : ActiveFilters) (cache : String → Option Theme)
    (c : CardDom) : (applyFiltersCard f cache c).active = c.active := by
  cases h : c.front with
  | none => simp [applyFiltersCard, h]
  | some tid => cases hc : cache tid <;> simp [applyFiltersCard, h, hc]

theorem applyFiltersCard_front (f : ActiveFilters) (cache : String → Option Theme)
    (c : CardDom) : (applyFiltersCard f cache c).front = c.front := by
  cases h : c.front with
  | none => simp [applyFiltersCard, h]
  | some tid => cases hc : cache tid <;> simp [applyFiltersCard, h, hc]

/-- Re-running the per-card filter step changes nothing: the recomputed
`shouldShow` depends only on the front attribute, the cache and the filters,
none of which the step alters. -/
theorem applyFiltersCard_idem (f : ActiveFilters) (cache : String → Option Theme)
    (c : CardDom) :
    applyFiltersCard f cache (applyFiltersCard f cache c) = applyFiltersCard f cache c := by
  unfold applyFiltersCard
  cases h : c.front with
  | none => simp [h]
  | some tid => cases hc : cache tid <;> simp [h, hc]

/-- The code's `shouldShow` computation agrees with the spec's wording of the
visibility policy. -/
theorem shouldShowTheme_iff (f : ActiveFilters) (t : Theme) :
    shouldShowTheme f t = true ↔ specVisible f t := by
  unfold shouldShowTheme specVisible
  by_cases hc : f.colors = ∅ <;> by_cases hd : f.designs = ∅ <;>
    cases hcf : t.colorFamily <;> cases hds : t.designSystem <;>
      simp [hc, hd, setHas, Finset.card_pos, Finset.nonempty_iff_ne_empty,
        Finset.card_eq_zero]

/-- `totalCards` is the sum of the per-category theme counts. -/
theorem totalCards_eq_sum (d : ThemeData) :
    totalCards d = (d.categories.map (fun c => c.themes.length)).sum := by
  unfold totalCards
  have h : ∀ (l : List Category) (n : Nat),
      l.foldl (fun sum c => sum + c.themes.length) n
        = n + (l.map (fun c => c.themes.length)).sum := by
    intro l
    induction l with
    | nil => intro n; simp
    | cons c cs ih => intro n; simp [ih]; omega
  simpa using h d.categories 0

/-- Every section updated by an expand-all batch carries the batch's target
state. -/
theorem expandBatch_mem (dom : List String) (g : Bool)
    (states : List (String × Bool)) :
    ∀ p ∈ states.map (fun p => if p.1 ∈ dom then (p.1, g) else p),
      p.1 ∈ dom → p.2 = g := by
  intro p hp hdom
  obtain ⟨q, _, rfl⟩ := List.mem_map.mp hp
  by_cases h : q.1 ∈ dom
  · simp [h]
  · simp only [if_neg h] at hdom
    exact absurd hdom h

/-! ## Concrete instances used by witnesses and counterexamples -/

/-- A page state with one tracked, expanded `core` section and nothing else. -/
def sEx : AppState :=
  { filters := { colors := ∅, designs := ∅ }
    allCardsFlipped := false
    allSectionsExpanded := false
    activeThemeCard := none
    cards := []
    sectionStates := [("core", true)] }

/-- A rendered, visible card whose `data-theme` resolves to nothing. -/
def ghostCard : CardDom :=
  { front := some "ghost", display := true, flipped := false, active := false }

/-- A lookup index with no entries. -/
def noCache : String → Option Theme := fun _ => none

/-- An active color-family filter. -/
def warmOnly : ActiveFilters := { colors := {"warm"}, designs := ∅ }

/-! ## Claims -/

/-- C2: the claim says no exception escapes the startup sequence after a load
failure.  The catch in `loadThemeData` does leave the Dataset Store empty and
`renderThemeSections` renders nothing, but `initializeFilters` dereferences
`themeData.categories` with no null guard, so startup throws a `TypeError`
that escapes — the counter update is never even reached. -/
theorem startup_load_failure_throws (msg : String) :
    (loadThemeData (.error msg)).1 = none ∧
    renderThemeSections (loadThemeData (.error msg)).1 (loadThemeData (.error msg)).2 = [] ∧
    startupSequence (.error msg) = .error "TypeError: cannot read categories of null" :=
  ⟨rfl, rfl, rfl⟩

/-- C3, counterexample: with one tracked section, two expand-all batches in
succession leave a per-section expansion state different from one batch. -/
theorem expandToggle_twice_ne_once :
    (handleExpandToggle ["core"] (handleExpandToggle ["core"] sEx)).sectionStates ≠
      (handleExpandToggle ["core"] sEx).sectionStates := by
  decide

/-- C3, amended: each expand-all invocation toggles the global flag and sets
every batch-covered section to the new flag value; two invocations therefore
set those sections back to the original flag — the state after one batch,
with the sections at the negated flag, is not reproduced. -/
theorem handleExpandToggle_twice (dom : List String) (s : AppState) :
    (handleExpandToggle dom s).allSectionsExpanded = !s.allSectionsExpanded ∧
    (handleExpandToggle dom (handleExpandToggle dom s)).allSectionsExpanded
      = s.allSectionsExpanded ∧
    (∀ p ∈ (handleExpandToggle dom s).sectionStates,
       p.1 ∈ dom → p.2 = !s.allSectionsExpanded) ∧
    (∀ p ∈ (handleExpandToggle dom (handleExpandToggle dom s)).sectionStates,
       p.1 ∈ dom → p.2 = s.allSectionsExpanded) := by
  refine ⟨rfl, by simp [handleExpandToggle], ?_, ?_⟩
  · exact expandBatch_mem dom _ s.sectionStates
  · have h := expandBatch_mem dom (!(!s.allSectionsExpanded))
      ((handleExpandToggle dom s).sectionStates)
    simpa [handleExpandToggle] using h

/-- C3, witness for the amended theorem at a concrete state. -/
theorem handleExpandToggle_twice_witness :
    ("core", true) ∈ (handleExpandToggle ["core"] sEx).sectionStates ∧
    ("core" : String) ∈ ["core"] ∧
    (("core", true).2 : Bool) = !sEx.allSectionsExpanded :=
  ⟨by decide, by decide,
    (handleExpandToggle_twice ["core"] sEx).2.2.1 ("core", true) (by decide) (by decide)⟩

/-- C4, counterexample: with an active color filter that a matching pass
would fail, a visible card whose theme id misses the Lookup Index is left
visible by the filter pass — it is skipped, not hidden as the claim says. -/
theorem missingTheme_card_not_hidden :
    applyFilters warmOnly noCache [ghostCard] = [ghostCard] ∧
      ghostCard.display = true :=
  ⟨rfl, rfl⟩

/-- C4, amended: a card whose theme identifier is absent from the Lookup
Index is skipped by the filter pass without fault — it is left exactly as it
was, retaining its previous visibility state (not forced hidden). -/
theorem applyFiltersCard_skips_unknown (f : ActiveFilters)
    (cache : String → Option Theme) (c : CardDom) (tid : String)
    (h1 : c.front = some tid) (h2 : cache tid = none) :
    applyFiltersCard f cache c = c := by
  simp [applyFiltersCard, h1, h2]

/-- C4, witness for the amended theorem. -/
theorem applyFiltersCard_skips_unknown_witness :
    ghostCard.front = some "ghost" ∧ noCache "ghost" = none ∧
      applyFiltersCard warmOnly noCache ghostCard = ghostCard :=
  ⟨rfl, rfl, applyFiltersCard_skips_unknown warmOnly noCache ghostCard "ghost" rfl rfl⟩

/-- C5: toggling the same filter value twice returns the whole filter state
to exactly its prior contents, for either facet. -/
theorem toggleFilter_involution (ty v : String) (f : ActiveFilters) :
    toggleFilter ty v (toggleFilter ty v f) = f := by
  by_cases hty : ty = "color"
  · by_cases hv : v ∈ f.colors
    · simp [toggleFilter, hty, hv, Finset.insert_erase hv]
    · simp [toggleFilter, hty, hv, Finset.erase_insert hv]
  · by_cases hv : v ∈ f.designs
    · simp [toggleFilter, hty, hv, Finset.insert_erase hv]
    · simp [toggleFilter, hty, hv, Finset.erase_insert hv]

/-- C10: the card markup only ever shows the first 5 palette entries as front
dots and the first 4 back-card primary colors as swatches — truncating both
lists to those prefixes leaves the produced markup unchanged, so later
entries never appear in it. -/
theorem createThemeCard_truncates_palette (t : Theme) :
    createThemeCard t =
      createThemeCard
        { t with
          colorPalette := t.colorPalette.take 5
          backCard :=
            { t.backCard with
              theme :=
                { t.backCard.theme with
                  primaryColors := t.backCard.theme.primaryColors.take 4 } } } := by
  simp [createThemeCard, List.take_take]

/-- A minimal theme record (only identity and facet tags distinguish it). -/
def mkTheme (id : String) (cf ds : Option String) : Theme :=
  { id := id, name := id, displayName := id, tagline := none
    historicalContext := "", colorFamily := cf, designSystem := ds
    vibes := [], colorPalette := []
    frontCard := { textColor := "#fff" }
    backCard :=
      { theme := { backgroundGradient := "", primaryColors := [] }
        components := { button := { background := "", color := none, border := none } } } }

/-- A warm-family theme. -/
def tWarm : Theme := mkTheme "t1" (some "warm") none

/-- A one-category, one-theme dataset. -/
def dEx : ThemeData :=
  { categories := [{ id := "core", title := "Core", themes := [tWarm] }] }

/-- C1: for a theme of the loaded dataset (its id resolving to it in the
Lookup Index), the filter pass leaves its card visible exactly when the
spec's policy says so: each facet with a non-empty active set must contain
the theme's tag, an empty facet set constrains nothing, and the two facets
are conjoined. -/
theorem applyFilters_visible_iff (d : ThemeData) (f : ActiveFilters) (i : Nat)
    (T : Theme) (hT : (allThemes d)[i]? = some T)
    (hcache : themeCacheGet d T.id = some T) :
    ∀ c, (applyFilters f (themeCacheGet d) (initCards d))[i]? = some c →
      (c.display = true ↔ specVisible f T) := by
  intro c hc
  have hinit : (initCards d)[i]? = some (initCard T) := by
    rw [initCards, List.getElem?_map, hT]; rfl
  rw [applyFilters, List.getElem?_map, hinit] at hc
  have hstep : applyFiltersCard f (themeCacheGet d) (initCard T)
      = { initCard T with display := shouldShowTheme f T } := by
    simp [applyFiltersCard, initCard, hcache]
  simp only [Option.map_some'] at hc
  rw [hstep] at hc
  cases hc
  simpa using shouldShowTheme_iff f T

/-- C1, witness at a concrete one-theme dataset with an active color filter. -/
theorem applyFilters_visible_iff_witness :
    ((allThemes dEx)[0]? = some tWarm) ∧
    (themeCacheGet dEx tWarm.id = some tWarm) ∧
    ((applyFilters warmOnly (themeCacheGet dEx) (initCards dEx))[0]?
      = some { front := some "t1", display := true, flipped := false, active := false }) ∧
    (({ front := some "t1", display := true, flipped := false,
        active := false } : CardDom).display = true ↔ specVisible warmOnly tWarm) :=
  ⟨by decide, by decide, by decide,
    applyFilters_visible_iff dEx warmOnly 0 tWarm (by decide) (by decide) _ (by decide)⟩

/-- A list whose elements are all fixed by a function is fixed by mapping it. -/
theorem map_fixes_of_mem (l : List α) (f : α → α) (h : ∀ x ∈ l, f x = x) :
    l.map f = l := by
  induction l with
  | nil => rfl
  | cons a as ih =>
    simp only [List.map_cons]
    rw [h a (by simp), ih (fun x hx => h x (by simp [hx]))]

/-- With both facet sets empty the per-card filter step shows every card the
Lookup Index resolves. -/
theorem applyFiltersCard_empty (cache : String → Option Theme) (c : CardDom)
    (tid : String) (t : Theme) (h1 : c.front = some tid)
    (h2 : cache tid = some t) :
    applyFiltersCard { colors := ∅, designs := ∅ } cache c
      = { c with display := true } := by
  simp [applyFiltersCard, h1, h2, shouldShowTheme]

/-- C6: clearing filters empties both facet sets in the one operation,
re-shows every card whose theme the Lookup Index resolves, is idempotent,
and is the identity on a state whose facet sets are already empty and whose
resolvable cards are already visible. -/
theorem clearAllFilters_spec (cache : String → Option Theme) (s : AppState) :
    (clearAllFilters cache s).filters = { colors := ∅, designs := ∅ } ∧
    (∀ c ∈ (clearAllFilters cache s).cards,
       (∃ tid t, c.front = some tid ∧ cache tid = some t) → c.display = true) ∧
    clearAllFilters cache (clearAllFilters cache s) = clearAllFilters cache s ∧
    (s.filters = { colors := ∅, designs := ∅ } →
      (∀ c ∈ s.cards, (∃ tid t, c.front = some tid ∧ cache tid = some t) →
        c.display = true) →
      clearAllFilters cache s = s) := by
  refine ⟨rfl, ?_, ?_, ?_⟩
  · intro c hc ⟨tid, t, h1, h2⟩
    simp only [clearAllFilters, applyFilters] at hc
    obtain ⟨c0, _, rfl⟩ := List.mem_map.mp hc
    have h0 : c0.front = some tid := by
      rw [← applyFiltersCard_front { colors := ∅, designs := ∅ } cache c0]; exact h1
    rw [applyFiltersCard_empty cache c0 tid t h0 h2]
  · simp only [clearAllFilters, applyFilters, List.map_map]
    congr 1
    exact List.map_congr_left fun c _ => applyFiltersCard_idem _ cache c
  · intro hf hvis
    have hcards : applyFilters { colors := ∅, designs := ∅ } cache s.cards = s.cards := by
      apply map_fixes_of_mem
      intro c hc
      cases h1 : c.front with
      | none => simp [applyFiltersCard, h1]
      | some tid =>
        cases h2 : cache tid with
        | none => simp [applyFiltersCard, h1, h2]
        | some t =>
          rw [applyFiltersCard_empty cache c tid t h1 h2]
          have : c.display = true := hvis c hc ⟨tid, t, h1, h2⟩
          cases c; simp_all
    have hrw : clearAllFilters cache s
        = { s with filters := { colors := ∅, designs := ∅ }
                   cards := applyFilters { colors := ∅, designs := ∅ } cache s.cards } := rfl
    rw [hrw, hcards, ← hf]

/-- A page state with one hidden card backed by the sample dataset and an
active color filter. -/
def sW : AppState :=
  { filters := warmOnly
    allCardsFlipped := false
    allSectionsExpanded := false
    activeThemeCard := none
    cards := [{ front := some "t1", display := false, flipped := false, active := false }]
    sectionStates := [("core", true)] }

/-- C6, witness: clearing the filters of `sW` re-shows its hidden card. -/
theorem clearAllFilters_spec_witness :
    ({ front := some "t1", display := true, flipped := false,
       active := false } : CardDom) ∈ (clearAllFilters (themeCacheGet dEx) sW).cards ∧
    ({ front := some "t1", display := true, flipped := false,
       active := false } : CardDom).display = true :=
  ⟨by decide,
    (clearAllFilters_spec (themeCacheGet dEx) sW).2.1 _ (by decide)
      ⟨"t1", tWarm, by decide, by decide⟩⟩

/-- C7: a flip-all batch toggles the global flag and forces every card other
than the focused one to the new flag value; the focused card is passed over
by the batch and keeps its flip state. -/
theorem handleFlipToggle_spec (s : AppState) :
    (handleFlipToggle s).allCardsFlipped = !s.allCardsFlipped ∧
    ∀ j c, s.cards[j]? = some c →
      (handleFlipToggle s).cards[j]?
        = some (if s.activeThemeCard = some j then c
                else { c with flipped := !s.allCardsFlipped }) := by
  refine ⟨rfl, ?_⟩
  intro j c hc
  simp only [handleFlipToggle]
  rw [mapWithIndex_getElem?, hc, Option.map_some']

/-- A focused, flipped card. -/
def cardA : CardDom := { front := none, display := true, flipped := true, active := true }

/-- An unfocused, unflipped card. -/
def cardB : CardDom := { front := none, display := true, flipped := false, active := false }

/-- A page state focusing card 0 of two cards. -/
def sF : AppState :=
  { filters := { colors := ∅, designs := ∅ }
    allCardsFlipped := false
    allSectionsExpanded := false
    activeThemeCard := some 0
    cards := [cardA, cardB]
    sectionStates := [] }

/-- C7, witness: in `sF` the non-focused card 1 gets the batch target state. -/
theorem handleFlipToggle_spec_witness :
    sF.cards[1]? = some cardB ∧
    (handleFlipToggle sF).cards[1]?
      = some (if sF.activeThemeCard = some 1 then cardB
              else { cardB with flipped := !sF.allCardsFlipped }) :=
  ⟨by decide, (handleFlipToggle_spec sF).2 1 cardB (by decide)⟩

/-- C8: when the card list is the dataset's rendering (one card per theme),
the counter's numbers satisfy visible ≤ total, the total is the sum of the
per-category theme counts (no filter argument even occurs in it), and the
counter reads `visible / total` exactly when at least one filter value is
active — otherwise it shows the bare total, which the length of the text
distinguishes from any pair. -/
theorem updateCardCount_spec (d : ThemeData) (f : ActiveFilters)
    (cards : List CardDom) (hlen : cards.length = totalCards d) :
    visibleCards cards ≤ totalCards d ∧
    totalCards d = (d.categories.map (fun c => c.themes.length)).sum ∧
    (updateCardCount (some d) f cards
        = some (toString (visibleCards cards) ++ " / " ++ toString (totalCards d))
      ↔ isFiltered f = true) ∧
    (isFiltered f = false →
      updateCardCount (some d) f cards = some (toString (totalCards d))) := by
  refine ⟨?_, totalCards_eq_sum d, ⟨?_, ?_⟩, ?_⟩
  · calc visibleCards cards ≤ cards.length := List.length_filter_le _ _
      _ = totalCards d := hlen
  · intro h
    by_cases hf : isFiltered f = true
    · exact hf
    · exfalso
      have hf2 : isFiltered f = false := by
        cases hb : isFiltered f
        · rfl
        · exact absurd hb hf
      rw [updateCardCount, hf2] at h
      simp only [Bool.false_eq_true, if_false, Option.some_inj] at h
      have hL := congrArg String.length h
      rw [String.length_append, String.length_append] at hL
      have h3 : (" / " : String).length = 3 := by decide
      omega
  · intro h
    rw [updateCardCount, h]
    simp
  · intro h
    rw [updateCardCount, h]
    simp

/-- C8, witness: the rendered sample dataset has one card and one theme. -/
theorem updateCardCount_spec_witness :
    (initCards dEx).length = totalCards dEx ∧
    visibleCards (initCards dEx) ≤ totalCards dEx :=
  ⟨by decide, (updateCardCount_spec dEx warmOnly (initCards dEx) (by decide)).1⟩

/-! ## At-most-one-focused-card invariant (C9) -/

/-- Any card carrying the `active` class is the one `activeThemeCard` points
at — the inductive invariant behind "at most one focused card". -/
def focusOk (s : AppState) : Prop :=
  ∀ j c, s.cards[j]? = some c → c.active = true → s.activeThemeCard = some j

/-- At most one card of the page carries the `active` class. -/
def atMostOneFocused (s : AppState) : Prop :=
  ∀ (j k : Nat) (cj ck : CardDom), s.cards[j]? = some cj → s.cards[k]? = some ck →
    cj.active = true → ck.active = true → j = k

theorem atMostOneFocused_of_focusOk (s : AppState) (h : focusOk s) :
    atMostOneFocused s := by
  intro j k cj ck hj hk haj hak
  have h1 := h j cj hj haj
  have h2 := h k ck hk hak
  rw [h1] at h2
  exact Option.some_inj.mp h2

/-- What `setActiveThemeCard` does to each card position: the new active card
gains the class, a previously referenced different card loses it, everything
else is untouched. -/
theorem setActiveThemeCard_getElem? (i : Nat) (s : AppState) (j : Nat) :
    (setActiveThemeCard i s).cards[j]?
      = (s.cards[j]?).map (fun c =>
          if j = i then { c with active := true }
          else if s.activeThemeCard = some j then { c with active := false }
          else c) := by
  simp only [setActiveThemeCard]
  rw [mapWithIndex_getElem?]
  cases hprev : s.activeThemeCard with
  | none =>
    cases hcj : s.cards[j]? with
    | none => rfl
    | some c => by_cases hji : j = i <;> simp [hji]
  | some k =>
    dsimp only
    by_cases hki : k = i
    · rw [if_pos hki]
      cases hcj : s.cards[j]? with
      | none => rfl
      | some c =>
        by_cases hji : j = i
        · simp [hji]
        · have hjk : ¬(some k = some j) := by
            intro hcon
            exact hji (by rw [← Option.some_inj.mp hcon, hki])
          simp [hji, hjk]
    · rw [if_neg hki, mapWithIndex_getElem?, Option.map_map]
      cases hcj : s.cards[j]? with
      | none => rfl
      | some c =>
        simp only [Option.map_some']
        by_cases hji : j = i
        · have hjk : ¬(j = k) := fun hcon => hki (by rw [← hcon, hji])
          have hik : ¬(i = k) := fun hcon => hki hcon.symm
          simp [hji, hjk, hik]
        · by_cases hjk : j = k
          · have : some k = some j := by rw [hjk]
            simp [Function.comp, hji, hjk, this]
          · have : ¬(some k = some j) := fun hcon => hjk (Option.some_inj.mp hcon).symm
            simp [Function.comp, hji, hjk, this]

theorem setActiveThemeCard_activeRef (i : Nat) (s : AppState) :
    (setActiveThemeCard i s).activeThemeCard = some i := rfl

/-- Setting a focused card keeps the invariant. -/
theorem focusOk_setActive (i : Nat) (s : AppState) (h : focusOk s) :
    focusOk (setActiveThemeCard i s) := by
  intro j c hc hact
  rw [setActiveThemeCard_getElem?] at hc
  rw [setActiveThemeCard_activeRef]
  cases hcj : s.cards[j]? with
  | none => rw [hcj] at hc; exact absurd hc (by simp)
  | some c0 =>
    rw [hcj, Option.map_some'] at hc
    have hc2 := Option.some_inj.mp hc
    by_cases hji : j = i
    · rw [hji]
    · rw [if_neg hji] at hc2
      by_cases hpj : s.activeThemeCard = some j
      · rw [if_pos hpj] at hc2
        rw [← hc2] at hact
        simp at hact
      · rw [if_neg hpj] at hc2
        rw [← hc2] at hact
        exact absurd (h j c0 hcj hact) hpj

/-- One interaction step keeps the invariant: only `setActiveThemeCard`
(inside a card click) ever grants the `active` class. -/
theorem focusOk_step (cache : String → Option Theme) (dom : List String)
    (op : Op) (s : AppState) (h : focusOk s) : focusOk (step cache dom op s) := by
  cases op with
  | flipCardOp i =>
    simp only [step, flipCard]
    by_cases hlen : i < s.cards.length
    · rw [if_pos hlen]
      intro j c hc hact
      rw [mapWithIndex_getElem?] at hc
      cases hcj : (setActiveThemeCard i s).cards[j]? with
      | none => rw [hcj] at hc; exact absurd hc (by simp)
      | some c0 =>
        rw [hcj, Option.map_some'] at hc
        have hc2 := Option.some_inj.mp hc
        have hS := focusOk_setActive i s h
        have hact0 : c0.active = true := by
          by_cases hji : j = i
          · rw [if_pos hji] at hc2; rw [← hc2] at hact; simpa using hact
          · rw [if_neg hji] at hc2; rw [← hc2] at hact; exact hact
        exact hS j c0 hcj hact0
    · rw [if_neg hlen]; exact h
  | flipAllToggle =>
    intro j c hc hact
    simp only [step, handleFlipToggle] at hc
    rw [mapWithIndex_getElem?] at hc
    cases hcj : s.cards[j]? with
    | none => rw [hcj] at hc; exact absurd hc (by simp)
    | some c0 =>
      rw [hcj, Option.map_some'] at hc
      have hc2 := Option.some_inj.mp hc
      have hact0 : c0.active = true := by
        by_cases hpj : s.activeThemeCard = some j
        · rw [if_pos hpj] at hc2; rw [← hc2] at hact; exact hact
        · rw [if_neg hpj] at hc2; rw [← hc2] at hact; simpa using hact
      exact h j c0 hcj hact0
  | expandAllToggle => exact fun j c hc hact => h j c hc hact
  | toggleFilterOp ty v =>
    intro j c hc hact
    simp only [step, applyFilters] at hc
    rw [List.getElem?_map] at hc
    cases hcj : s.cards[j]? with
    | none => rw [hcj] at hc; exact absurd hc (by simp)
    | some c0 =>
      rw [hcj, Option.map_some'] at hc
      have hc2 := Option.some_inj.mp hc
      have hact0 : c0.active = true := by
        rw [← hc2, applyFiltersCard_active] at hact; exact hact
      exact h j c0 hcj hact0
  | clearFiltersOp =>
    intro j c hc hact
    simp only [step, clearAllFilters, applyFilters] at hc
    rw [List.getElem?_map] at hc
    cases hcj : s.cards[j]? with
    | none => rw [hcj] at hc; exact absurd hc (by simp)
    | some c0 =>
      rw [hcj, Option.map_some'] at hc
      have hc2 := Option.some_inj.mp hc
      have hact0 : c0.active = true := by
        rw [← hc2, applyFiltersCard_active] at hact; exact hact
      exact h j c0 hcj hact0
  | toggleSectionOp id =>
    simp only [step, toggleSection]
    by_cases hdom : id ∈ dom
    · rw [if_pos hdom]; exact fun j c hc hact => h j c hc hact
    · rw [if_neg hdom]; exact h

/-- No rendered card starts with the `active` class. -/
theorem focusOk_initAppState (d : ThemeData) : focusOk (initAppState d) := by
  intro j c hc hact
  have hc2 : (initCards d)[j]? = some c := hc
  rw [initCards, List.getElem?_map] at hc2
  cases ht : (allThemes d)[j]? with
  | none => rw [ht] at hc2; exact absurd hc2 (by simp)
  | some t =>
    rw [ht, Option.map_some'] at hc2
    have := Option.some_inj.mp hc2
    rw [← this] at hact
    simp [initCard] at hact

theorem focusOk_runOps (cache : String → Option Theme) (dom : List String)
    (ops : List Op) (s : AppState) (h : focusOk s) :
    focusOk (runOps cache dom ops s) := by
  induction ops generalizing s with
  | nil => exact h
  | cons op ops ih => exact ih (step cache dom op s) (focusOk_step cache dom op s h)

/-- C9: in every state reachable from startup by any interaction sequence at
most one card carries the `active` class, and `setActiveThemeCard` unfocuses
a previously focused different card within the same operation. -/
theorem focusedCard_at_most_one (d : ThemeData) (cache : String → Option Theme)
    (dom : List String) (ops : List Op) :
    atMostOneFocused (runOps cache dom ops (initAppState d)) ∧
    (∀ (s : AppState) (i k : Nat), s.activeThemeCard = some k → k ≠ i →
      ∀ c, (setActiveThemeCard i s).cards[k]? = some c → c.active = false) := by
  constructor
  · exact atMostOneFocused_of_focusOk _
      (focusOk_runOps cache dom ops _ (focusOk_initAppState d))
  · intro s i k hk hki c hc
    rw [setActiveThemeCard_getElem?] at hc
    cases hcj : s.cards[k]? with
    | none => rw [hcj] at hc; exact absurd hc (by simp)
    | some c0 =>
      rw [hcj, Option.map_some'] at hc
      have hc2 := Option.some_inj.mp hc
      rw [if_neg hki, if_pos hk] at hc2
      rw [← hc2]

/-- C9, witness: refocusing from card 0 to card 1 of `sF` strips card 0's
`active` class in the same operation. -/
theorem focusedCard_at_most_one_witness :
    sF.activeThemeCard = some 0 ∧ (0 : Nat) ≠ 1 ∧
    (setActiveThemeCard 1 sF).cards[0]? = some { cardA with active := false } ∧
    ({ cardA with active := false } : CardDom).active = false :=
  ⟨rfl, by decide, by decide,
    (focusedCard_at_most_one dEx noCache [] []).2 sF 1 0 rfl (by decide)
      { cardA with active := false } (by decide)⟩

end Cardography
